import Mathlib

/-!
Verification of the safe external-process invocation layer of
`tmux_utils.py` (class `TmuxOrchestrator`).

The Python code shells out to external processes.  We embed it shallowly:
the behaviour of the external world (what a spawned process would do, what
the interactive operator would type) is passed in explicitly as data, and
each Python method becomes a total Lean function from that behaviour to an
outcome value.  Raised exceptions become outcome constructors; a call that
would block forever becomes the distinguished outcome `hangs`.

Time is modelled in whole seconds as `Nat` (the code compares wall-clock
differences against integer/float timeouts; none of the claims depend on
fractional times).  Python `str.strip` / `str.lower` are modelled by
`String.trim` / `String.toLower` (the ASCII fragment, which is what the
affirmative literal `"yes"` exercises).
-/

set_option autoImplicit false
set_option linter.unusedVariables false

namespace TmuxUtils

/-- A command line: the ordered list of argument strings handed to
`subprocess.Popen` (never a shell string). -/
abbrev Cmd := List String

/-- The orchestrator object: the attributes set in
`TmuxOrchestrator.__init__`.  `safety_mode` is the backing field
`_safety_mode`, exposed read-only through the `safety_mode` property. -/
structure TmuxOrchestrator where
  safety_mode : Bool
  max_lines_capture : Nat
  cmd_timeout : Nat
  max_lines_per_pane : Nat
  deriving DecidableEq, Repr

/-- `TmuxOrchestrator.__init__(safety_mode=True, cmd_timeout=10)`:
`max_lines_capture` is hard-coded to 1000 and `max_lines_per_pane`
to 20. -/
def TmuxOrchestrator.init (safety_mode : Bool) (cmd_timeout : Nat) :
    TmuxOrchestrator :=
  { safety_mode := safety_mode
    max_lines_capture := 1000
    cmd_timeout := cmd_timeout
    max_lines_per_pane := 20 }

/-- The `if timeout is None: timeout = self.cmd_timeout` dance shared by
both subprocess helpers. -/
def effective_timeout (orch : TmuxOrchestrator) : Option Nat → Nat
  | none => orch.cmd_timeout
  | some t => t

/-- Behaviour of the external world for one `Popen` + `communicate` call:
either `Popen` itself raises an OS-level exception (`FileNotFoundError`,
`PermissionError`, ...) carrying `msg`, or a process is created that runs
for `runTime` seconds and then exits with `exitCode` having written
`stdout` / `stderr` in full. -/
inductive SpawnResult where
  | spawnFail (msg : String)
  | proc (runTime : Nat) (stdout stderr : String) (exitCode : Int)
  deriving DecidableEq, Repr

/-- Outcome of `_safe_subprocess_large_output`.
`ok` is the normal return `(stdout, stderr, returncode)`;
`tmuxTimeout` is the `TmuxError(f"Command timeout after {t}s: {cmd}")`
raised on `subprocess.TimeoutExpired`, which structurally carries exactly
the command and the timeout value and no output text;
`osError` is an exception raised by `Popen` itself, which the method does
not catch (the `try` block starts only after `Popen`), so it propagates
unclassified. -/
inductive BoundedOutcome where
  | ok (stdout stderr : String) (exitCode : Int)
  | tmuxTimeout (cmd : Cmd) (timeout : Nat)
  | osError (msg : String)
  deriving DecidableEq, Repr

/-- The captured output text an outcome carries, if any: the timeout and
spawn failures carry none. -/
def BoundedOutcome.capturedText : BoundedOutcome → Option (String × String)
  | .ok out err _ => some (out, err)
  | .tmuxTimeout _ _ => none
  | .osError _ => none

/-- Result of one `_safe_subprocess_large_output` call together with the
fate of the child process: `killed` records whether `proc.kill()` was
called, and `childSurvives` whether a child process is still running after
the call returns (kill followed by the reaping `proc.communicate()` means
no survivor; a process that exited on its own is also gone; a failed spawn
never created one). -/
structure BoundedRun where
  outcome : BoundedOutcome
  killed : Bool
  childSurvives : Bool
  deriving DecidableEq, Repr

/-- Shallow embedding of `TmuxOrchestrator._safe_subprocess_large_output`.
`proc.communicate(timeout=timeout)` returns the full streams iff the
process exits within `timeout` seconds; otherwise `TimeoutExpired` is
raised, the code kills the child, reaps it with a second `communicate()`,
and raises `TmuxError` naming the command and the timeout. -/
def safe_subprocess_large_output (orch : TmuxOrchestrator) (beh : SpawnResult)
    (cmd : Cmd) (timeoutArg : Option Nat) : BoundedRun :=
  let timeout := effective_timeout orch timeoutArg
  match beh with
  | .spawnFail msg =>
      { outcome := .osError msg, killed := false, childSurvives := false }
  | .proc runTime out err code =>
      if runTime ≤ timeout then
        { outcome := .ok out err code, killed := false, childSurvives := false }
      else
        { outcome := .tmuxTimeout cmd timeout, killed := true, childSurvives := false }

/-- Behaviour of the external world for one `Popen` + line-streaming call
(`_safe_subprocess_stream`).  `lines` are the stdout lines in order, each
paired with the wall-clock second (since the start of the call) at which
`proc.stdout.readline` returns it; every line includes its trailing
newline, as Python `readline` delivers it.  After the last listed line:
if `eofClosed` is true the child closes its stdout, so the next `readline`
returns `""` and the `for` loop ends; if false the stream stalls — no
further line and no end-of-file ever arrive, so `readline` blocks forever.
`waitReturns` says whether the (untimed) `proc.wait()` after the loop
returns, i.e. whether the child eventually exits once the code stops
reading. -/
structure StreamBehavior where
  lines : List (Nat × String)
  eofClosed : Bool
  waitReturns : Bool
  deriving DecidableEq, Repr

/-- Outcome of `_safe_subprocess_stream`.  `ok chunks` is a normal return
of `"".join(chunks)` — we keep the chunk list so line counts are
observable; the returned string is `String.join chunks`.  `tmuxTimeout` is
the raised `TmuxError(f"Command timeout after {t}s: {cmd}")` (the child is
killed first).  `hangs` means the call never returns (blocked in
`readline` or in `proc.wait()`). -/
inductive StreamOutcome where
  | ok (chunks : List String)
  | tmuxTimeout (cmd : Cmd) (timeout : Nat)
  | hangs
  deriving DecidableEq, Repr

/-- The loop body of `_safe_subprocess_stream`:

    for line in iter(proc.stdout.readline, ""):
        chunks.append(line)
        if time.time() - start_time > timeout:
            proc.kill()
            raise TmuxError(...)
        if len(chunks) > self.max_lines_capture:
            break
    proc.wait()
    return "".join(chunks)

`chunks` is accumulated in reverse (cons) and reversed on return.  The
elapsed time observed just after a line is appended is that line's arrival
time.  Note the order: the timeout test precedes the cap test, and the cap
test fires only when the count already EXCEEDS the cap (strict `>` after
appending). -/
def stream_loop (timeout cap : Nat) (cmd : Cmd) (eofClosed waitReturns : Bool) :
    List (Nat × String) → List String → StreamOutcome
  | [], chunks =>
      if eofClosed then
        (if waitReturns then .ok chunks.reverse else .hangs)
      else .hangs
  | (t, l) :: rest, chunks =>
      if timeout < t then .tmuxTimeout cmd timeout
      else if cap < (l :: chunks).length then
        (if waitReturns then .ok (l :: chunks).reverse else .hangs)
      else stream_loop timeout cap cmd eofClosed waitReturns rest (l :: chunks)

/-- Shallow embedding of `TmuxOrchestrator._safe_subprocess_stream`.
(The `proc.stdout is None` guard can never fire, since stdout is opened
with `subprocess.PIPE`; the surrounding `except Exception: proc.kill();
raise` re-raises the timeout `TmuxError` unchanged after a second,
redundant kill, so it does not alter the outcome.  A `Popen` spawn
failure is not modelled here; no claim depends on it for this helper.) -/
def safe_subprocess_stream (orch : TmuxOrchestrator) (beh : StreamBehavior)
    (cmd : Cmd) (timeoutArg : Option Nat) : StreamOutcome :=
  stream_loop (effective_timeout orch timeoutArg) orch.max_lines_capture cmd
    beh.eofClosed beh.waitReturns beh.lines []

/-- The string `_safe_subprocess_stream` hands back on a normal return. -/
def StreamOutcome.returnedString : StreamOutcome → Option String
  | .ok chunks => some (String.join chunks)
  | _ => none

/-- Behaviour of the interactive operator for one `_safe_confirm` call:
`line t s` — `input()` returns the raw text `s` after `t` seconds;
`eofAt t` — `input()` raises `EOFError` after `t` seconds (the reader
thread then puts `""`); `noInput` — `input()` never returns (nothing is
ever put, so `queue.get(timeout=...)` raises `queue.Empty`). -/
inductive ConfirmInput where
  | line (arrival : Nat) (text : String)
  | eofAt (arrival : Nat)
  | noInput
  deriving DecidableEq, Repr

/-- Shallow embedding of `TmuxOrchestrator._safe_confirm`: the reader
thread puts `response.strip().lower()` (or `""` on `EOFError`); the caller
waits on the queue for at most `timeout` and compares the value against
the literal `"yes"`; `queue.Empty` yields `False`.  The prompt text plays
no role in the result.  Python `strip`/`lower` are modelled by
`String.trim`/`String.toLower`. -/
def safe_confirm (orch : TmuxOrchestrator) (prompt : String) (timeout : Nat)
    (inp : ConfirmInput) : Bool :=
  match inp with
  | .line t s => if t ≤ timeout then s.trim.toLower == "yes" else false
  | .eofAt t => if t ≤ timeout then "" == "yes" else false
  | .noInput => false

/-- Result of a public method call: a normal boolean return, a raised
`TmuxError` (with its message), or an uncaught OS-level exception
propagating through. -/
inductive CallResult where
  | ret (b : Bool)
  | tmuxError (msg : String)
  | osError (msg : String)
  deriving DecidableEq, Repr

/-- The character escaping in `send_keys_to_window`:
`keys.replace(";", "\\;").replace("$", "\\$").replace("`", "\\`")`. -/
def escape_keys (keys : String) : String :=
  ((keys.replace ";" "\\;").replace "$" "\\$").replace "`" "\\`"

/-- The confirmation prompt built in `send_keys_to_window`.  (The Python
text wraps `keys` in single-quote characters; they are elided here — the
prompt text never influences any result.) -/
def confirm_prompt (keys session : String) (idx : Int) : String :=
  s!"SAFETY CHECK: About to send {keys} to {session}:{idx}\nConfirm? (yes/no): "

/-- Shallow embedding of `TmuxOrchestrator.send_keys_to_window`.  Besides
the call result, it returns the trace of tmux command lines actually
handed to `_safe_subprocess_large_output` during the call.  When
`self.safety_mode and confirm` holds and `_safe_confirm` (with its
default 5-second timeout) returns `False`, the method prints and returns
`False` before any subprocess runs.  Otherwise the escaped keys are sent;
a non-zero exit raises `TmuxError("Failed to send keys: ...")`, which the
`except (CalledProcessError, TmuxError)` clause rewraps as
`TmuxError("Error sending keys: ...")`; so is the timeout `TmuxError`
coming out of the subprocess helper; an OS-level spawn exception matches
neither clause and propagates. -/
def send_keys_to_window (orch : TmuxOrchestrator) (session : String) (idx : Int)
    (keys : String) (confirm : Bool) (inp : ConfirmInput) (beh : SpawnResult) :
    CallResult × List Cmd :=
  if orch.safety_mode && confirm
      && !(safe_confirm orch (confirm_prompt keys session idx) 5 inp) then
    (.ret false, [])
  else
    let sk := escape_keys keys
    let cmd : Cmd := ["tmux", "send-keys", "-l", "-t", s!"{session}:{idx}", sk]
    match safe_subprocess_large_output orch beh cmd none with
    | { outcome := .ok _ stderr rc, .. } =>
        if rc ≠ 0 then
          (.tmuxError s!"Error sending keys: Failed to send keys: {stderr}", [cmd])
        else (.ret true, [cmd])
    | { outcome := .tmuxTimeout c t, .. } =>
        (.tmuxError s!"Error sending keys: Command timeout after {t}s: {c}", [cmd])
    | { outcome := .osError msg, .. } => (.osError msg, [cmd])

/-- Shallow embedding of `TmuxOrchestrator.send_command_to_window`: first
`send_keys_to_window` with the command text (same `confirm` flag); if that
returns `False` the method returns `False` at once (no Enter is sent); if
it raises, the exception propagates.  Otherwise the literal `C-m` key is
sent through `_safe_subprocess_large_output` with the analogous error
wrapping.  `keysBeh`/`enterBeh` are the world's behaviours for the two
subprocess calls; the returned trace accumulates both. -/
def send_command_to_window (orch : TmuxOrchestrator) (session : String)
    (idx : Int) (command : String) (confirm : Bool) (inp : ConfirmInput)
    (keysBeh enterBeh : SpawnResult) : CallResult × List Cmd :=
  match send_keys_to_window orch session idx command confirm inp keysBeh with
  | (.ret false, trace) => (.ret false, trace)
  | (.ret true, trace) =>
      let cmd : Cmd := ["tmux", "send-keys", "-t", s!"{session}:{idx}", "C-m"]
      match safe_subprocess_large_output orch enterBeh cmd none with
      | { outcome := .ok _ stderr rc, .. } =>
          if rc ≠ 0 then
            (.tmuxError s!"Error sending Enter key: Failed to send Enter key: {stderr}",
              trace ++ [cmd])
          else (.ret true, trace ++ [cmd])
      | { outcome := .tmuxTimeout c t, .. } =>
          (.tmuxError s!"Error sending Enter key: Command timeout after {t}s: {c}",
            trace ++ [cmd])
      | { outcome := .osError msg, .. } => (.osError msg, trace ++ [cmd])
  | (e, trace) => (e, trace)

/-- Outcome of `capture_window_content`: the captured text, a raised
`TmuxError`, a propagating OS exception, or a call that never returns
(inherited from the streaming helper). -/
inductive CaptureOutcome where
  | ok (s : String)
  | tmuxError (msg : String)
  | osError (msg : String)
  | hangs
  deriving DecidableEq, Repr

/-- Observable facts about one `capture_window_content` call: the clamped
line count `min(num_lines, self.max_lines_capture)` that ends up in the
`-S -{n}` argument, whether the streaming path was taken, and the tmux
command line built. -/
structure CaptureTrace where
  requestedLines : Nat
  usedStreaming : Bool
  cmd : Cmd
  deriving DecidableEq, Repr

/-- Shallow embedding of `TmuxOrchestrator.capture_window_content`:

    num_lines = min(num_lines, self.max_lines_capture)
    cmd = ["tmux", "capture-pane", "-t", f"{session}:{idx}", "-p", "-S", f"-{num_lines}"]
    if num_lines > 100: return self._safe_subprocess_stream(cmd)
    stdout, stderr, rc = self._safe_subprocess_large_output(cmd)
    if rc != 0: raise TmuxError(...)
    return stdout

with the `except (CalledProcessError, TmuxError)` clause rewrapping any
`TmuxError` as `TmuxError("Error capturing window content: ...")`.
`sBeh`/`bBeh` are the world's behaviours for the streaming and the
bounded subprocess call (only the branch actually taken consults its
behaviour). -/
def capture_window_content (orch : TmuxOrchestrator) (session : String)
    (idx : Int) (numLines : Nat) (sBeh : StreamBehavior) (bBeh : SpawnResult) :
    CaptureOutcome × CaptureTrace :=
  let n := min numLines orch.max_lines_capture
  let cmd : Cmd :=
    ["tmux", "capture-pane", "-t", s!"{session}:{idx}", "-p", "-S", s!"-{n}"]
  let outcome : CaptureOutcome :=
    if 100 < n then
      match safe_subprocess_stream orch sBeh cmd none with
      | .ok chunks => .ok (String.join chunks)
      | .tmuxTimeout c t =>
          .tmuxError s!"Error capturing window content: Command timeout after {t}s: {c}"
      | .hangs => .hangs
    else
      match safe_subprocess_large_output orch bBeh cmd none with
      | { outcome := .ok out stderr rc, .. } =>
          if rc ≠ 0 then
            .tmuxError s!"Error capturing window content: Failed to capture window content: {stderr}"
          else .ok out
      | { outcome := .tmuxTimeout c t, .. } =>
          .tmuxError s!"Error capturing window content: Command timeout after {t}s: {c}"
      | { outcome := .osError msg, .. } => .osError msg
  (outcome, { requestedLines := n, usedStreaming := decide (100 < n), cmd := cmd })

/-- One call on a `TmuxOrchestrator` object, bundled with the behaviour
the external world exhibits during that call.  These are the operations of
the embedding; none of the corresponding Python methods assigns to any
attribute of `self`. -/
inductive OrchOp where
  | runBounded (beh : SpawnResult) (cmd : Cmd) (timeoutArg : Option Nat)
  | runStreamed (beh : StreamBehavior) (cmd : Cmd) (timeoutArg : Option Nat)
  | confirmOp (prompt : String) (timeout : Nat) (inp : ConfirmInput)
  | captureOp (session : String) (idx : Int) (numLines : Nat)
      (sBeh : StreamBehavior) (bBeh : SpawnResult)
  | sendKeysOp (session : String) (idx : Int) (keys : String) (confirm : Bool)
      (inp : ConfirmInput) (beh : SpawnResult)
  | sendCommandOp (session : String) (idx : Int) (command : String)
      (confirm : Bool) (inp : ConfirmInput) (keysBeh enterBeh : SpawnResult)

/-- The value an operation produces, wrapped in one sum so a trace of
heterogeneous calls can be replayed. -/
inductive StepResult where
  | bounded (r : BoundedRun)
  | streamed (r : StreamOutcome)
  | confirmed (b : Bool)
  | captured (r : CaptureOutcome × CaptureTrace)
  | call (r : CallResult × List Cmd)

/-- Execute one operation against the orchestrator object, returning the
object as the methods leave it together with the produced value.  This is
the state-passing reading of the Python methods: `self` flows in, and
since no method body contains an attribute assignment, the same object
flows out. -/
def stepOp (orch : TmuxOrchestrator) : OrchOp → TmuxOrchestrator × StepResult
  | .runBounded beh cmd t =>
      (orch, .bounded (safe_subprocess_large_output orch beh cmd t))
  | .runStreamed beh cmd t =>
      (orch, .streamed (safe_subprocess_stream orch beh cmd t))
  | .confirmOp prompt timeout inp =>
      (orch, .confirmed (safe_confirm orch prompt timeout inp))
  | .captureOp session idx numLines sBeh bBeh =>
      (orch, .captured (capture_window_content orch session idx numLines sBeh bBeh))
  | .sendKeysOp session idx keys confirm inp beh =>
      (orch, .call (send_keys_to_window orch session idx keys confirm inp beh))
  | .sendCommandOp session idx command confirm inp keysBeh enterBeh =>
      (orch, .call (send_command_to_window orch session idx command confirm inp keysBeh enterBeh))

/-- Run a whole sequence of operations, threading the orchestrator object
through. -/
def runOps (orch : TmuxOrchestrator) : List OrchOp → TmuxOrchestrator
  | [] => orch
  | op :: ops => runOps (stepOp orch op).1 ops

/-- The failure taxonomy from the specification, used to compare the
code's behaviour against the spec's words: a failure is either the tagged
`timeout` kind, the tagged `spawn-error` kind, or an unclassified
exception.  (This classification follows the SPEC, not the code; it is the
yardstick for the refinement claim about spawn failures.) -/
inductive SpecFailureKind where
  | timeout
  | spawnError
  | unclassified
  deriving DecidableEq, Repr

/-- How each concrete outcome of `_safe_subprocess_large_output` reads
against the spec's taxonomy: the raised `TmuxError("Command timeout
...")` is the tagged timeout kind; an exception coming straight out of
`Popen` (e.g. `FileNotFoundError`) is caught nowhere in the method and
carries no tag, hence unclassified.  No outcome of the code maps to
`spawnError`. -/
def BoundedOutcome.specKind : BoundedOutcome → Option SpecFailureKind
  | .ok .. => none
  | .tmuxTimeout _ _ => some .timeout
  | .osError _ => some .unclassified

/-- A concrete orchestrator whose `max_lines_capture` has been set to 2
(the attribute is plain mutable Python state; a small cap makes the
off-by-one of the cap test directly computable). -/
def capTwoOrch : TmuxOrchestrator :=
  { safety_mode := true
    max_lines_capture := 2
    cmd_timeout := 10
    max_lines_per_pane := 20 }

/-- A process that promptly emits four lines and then closes stdout and
exits: more lines than `capTwoOrch`'s cap of 2. -/
def fourLineBeh : StreamBehavior :=
  { lines := [(0, "a\n"), (0, "b\n"), (0, "c\n"), (0, "d\n")]
    eofClosed := true
    waitReturns := true }

/-- A process that emits one line and then stalls forever: no further
line, no end-of-file, and it never exits. -/
def stallBeh : StreamBehavior :=
  { lines := [(0, "partial\n")]
    eofClosed := false
    waitReturns := true }

/- ------------------------------------------------------------------ -/
/- Theorems                                                           -/
/- ------------------------------------------------------------------ -/

/-- Helper for C1: whenever the streaming loop returns normally, the
returned chunk list holds at most `cap + 1` lines — the cap test fires
only after the `(cap + 1)`-th line has already been appended. -/
theorem stream_loop_ok_length (timeout cap : Nat) (cmd : Cmd) (e w : Bool) :
    ∀ (lines : List (Nat × String)) (chunks out : List String),
      chunks.length ≤ cap →
      stream_loop timeout cap cmd e w lines chunks = .ok out →
      out.length ≤ cap + 1
  | [], chunks, out, hc, heq => by
      simp only [stream_loop] at heq
      split at heq
      · split at heq
        · cases heq
          simpa using Nat.le_succ_of_le hc
        · cases heq
      · cases heq
  | (t, l) :: rest, chunks, out, hc, heq => by
      simp only [stream_loop] at heq
      split at heq
      · cases heq
      · split at heq
        · split at heq
          · cases heq
            simpa using Nat.succ_le_succ hc
          · cases heq
        · rename_i hcap
          exact stream_loop_ok_length timeout cap cmd e w rest (l :: chunks) out
            (by simpa using Nat.not_lt.mp hcap) heq

/-- C1.  For every command, whenever `_safe_subprocess_stream` returns
normally it returns at most `max_lines_capture + 1` lines: the cap test
`len(chunks) > self.max_lines_capture` runs only after appending, so the
count can reach the cap plus one (and never more); the overrun is a plain
`break` — not an error — followed by `proc.wait()` and returning what was
collected. -/
theorem stream_cap_plus_one (orch : TmuxOrchestrator) (beh : StreamBehavior)
    (cmd : Cmd) (timeoutArg : Option Nat) (chunks : List String)
    (h : safe_subprocess_stream orch beh cmd timeoutArg = .ok chunks) :
    chunks.length ≤ orch.max_lines_capture + 1 :=
  stream_loop_ok_length (effective_timeout orch timeoutArg)
    orch.max_lines_capture cmd beh.eofClosed beh.waitReturns beh.lines [] chunks
    (Nat.zero_le _) h

/-- Witness for C1's theorem at a concrete input: the four-line process
against the cap-2 orchestrator returns three lines, within `cap + 1`. -/
theorem stream_cap_plus_one_witness :
    (["a\n", "b\n", "c\n"] : List String).length ≤ capTwoOrch.max_lines_capture + 1 :=
  stream_cap_plus_one capTwoOrch fourLineBeh ["tmux", "capture-pane"] none
    ["a\n", "b\n", "c\n"] (by decide)

/-- Counterexample for C1 as stated: with the cap configured to 2, a
four-line command makes `_safe_subprocess_stream` return THREE lines —
strictly more than the cap — because the cap test fires only once the
count already exceeds the cap. -/
theorem stream_cap_counterexample :
    safe_subprocess_stream capTwoOrch fourLineBeh ["tmux", "capture-pane"] none
        = .ok ["a\n", "b\n", "c\n"]
      ∧ capTwoOrch.max_lines_capture < (["a\n", "b\n", "c\n"] : List String).length := by
  decide

/-- Helper for C2: if every line before some late line arrives within the
timeout and does not overflow the cap, then reaching the late line (which
arrives strictly after the timeout) makes the loop raise the timeout
`TmuxError`. -/
theorem stream_loop_late_line (timeout cap : Nat) (cmd : Cmd) (e w : Bool)
    (t : Nat) (l : String) (post : List (Nat × String)) (ht : timeout < t) :
    ∀ (pre : List (Nat × String)) (chunks : List String),
      (∀ p ∈ pre, p.1 ≤ timeout) →
      chunks.length + pre.length ≤ cap →
      stream_loop timeout cap cmd e w (pre ++ (t, l) :: post) chunks
        = .tmuxTimeout cmd timeout
  | [], chunks, hpre, hlen => by
      simp only [List.nil_append, stream_loop, if_pos ht]
  | (t0, l0) :: pre, chunks, hpre, hlen => by
      have h0 : t0 ≤ timeout := hpre (t0, l0) (List.mem_cons_self _ _)
      have hnot : ¬ timeout < t0 := Nat.not_lt.mpr h0
      have hlen1 : ¬ cap < (l0 :: chunks).length := by
        simp only [List.length_cons, List.length_cons] at hlen ⊢
        omega
      simp only [List.cons_append, stream_loop, if_neg hnot, if_neg hlen1]
      exact stream_loop_late_line timeout cap cmd e w t l post ht pre (l0 :: chunks)
        (fun p hp => hpre p (List.mem_cons_of_mem _ hp))
        (by simp only [List.length_cons, List.length_cons] at hlen ⊢; omega)

/-- C2 (amended).  The timeout of `_safe_subprocess_stream` is observed
only after a line is received: if, before the cap is reached, a line
arrives strictly after the effective timeout, the child is killed and the
timeout `TmuxError` is raised — an outcome that structurally carries only
the command and the timeout, no partial output. -/
theorem stream_late_line_timeout (orch : TmuxOrchestrator) (cmd : Cmd)
    (timeoutArg : Option Nat) (pre : List (Nat × String)) (t : Nat) (l : String)
    (post : List (Nat × String)) (e w : Bool)
    (hpre : ∀ p ∈ pre, p.1 ≤ effective_timeout orch timeoutArg)
    (hlen : pre.length ≤ orch.max_lines_capture)
    (ht : effective_timeout orch timeoutArg < t) :
    safe_subprocess_stream orch ⟨pre ++ (t, l) :: post, e, w⟩ cmd timeoutArg
      = .tmuxTimeout cmd (effective_timeout orch timeoutArg) :=
  stream_loop_late_line (effective_timeout orch timeoutArg)
    orch.max_lines_capture cmd e w t l post ht pre [] hpre (by simpa using hlen)

/-- Witness for C2's amended theorem: one timely line, then a line at
second 11 against the default 10-second timeout — the call raises the
timeout error. -/
theorem stream_late_line_timeout_witness :
    safe_subprocess_stream (TmuxOrchestrator.init true 10)
        ⟨[(0, "x\n"), (11, "late\n")], true, true⟩ ["tmux", "wait-for", "y"] none
      = .tmuxTimeout ["tmux", "wait-for", "y"] 10 :=
  stream_late_line_timeout (TmuxOrchestrator.init true 10) ["tmux", "wait-for", "y"]
    none [(0, "x\n")] 11 "late\n" [] true true (by decide) (by decide) (by decide)

/-- Counterexample for C2 as stated: a command that emits one line and
then stalls forever never triggers the timeout check — `readline` blocks
and the call hangs instead of killing the child and raising the timeout
failure. -/
theorem stream_stall_counterexample :
    safe_subprocess_stream (TmuxOrchestrator.init true 10) stallBeh
        ["tmux", "wait-for", "x"] none = .hangs
      ∧ StreamOutcome.hangs ≠ .tmuxTimeout ["tmux", "wait-for", "x"] 10 := by
  decide

/-- C3 (amended).  When `Popen` cannot launch the executable, the raised
OS exception propagates out of `_safe_subprocess_large_output` unchanged
and untagged — the method's `try` starts only after `Popen`, and no code
in the file maps a spawn failure to a dedicated failure kind; against the
spec's taxonomy the outcome reads as `unclassified`, never as the tagged
`spawn-error`. -/
theorem spawn_unclassified (orch : TmuxOrchestrator) (msg : String) (cmd : Cmd)
    (timeoutArg : Option Nat) :
    safe_subprocess_large_output orch (.spawnFail msg) cmd timeoutArg
        = { outcome := .osError msg, killed := false, childSurvives := false }
      ∧ BoundedOutcome.specKind (.osError msg) = some .unclassified :=
  ⟨rfl, rfl⟩

/-- Counterexample for C3 as stated: launching a missing executable makes
`_safe_subprocess_large_output` surface the raw `FileNotFoundError`, which
classifies as `unclassified`, not as the tagged `spawn-error` kind the
claim requires. -/
theorem spawn_error_counterexample :
    (safe_subprocess_large_output (TmuxOrchestrator.init true 10)
          (.spawnFail "FileNotFoundError: definitely-not-a-program")
          ["definitely-not-a-program"] none).outcome
        = .osError "FileNotFoundError: definitely-not-a-program"
      ∧ BoundedOutcome.specKind
          (.osError "FileNotFoundError: definitely-not-a-program")
        = some .unclassified
      ∧ (some SpecFailureKind.unclassified : Option SpecFailureKind)
        ≠ some SpecFailureKind.spawnError := by
  decide

/-- C4.  For every command that does not exit within the effective
timeout, `_safe_subprocess_large_output` kills the child (and reaps it, so
no child survives the call), and raises the timeout `TmuxError` that
embeds exactly the command and the timeout value and carries no captured
output text. -/
theorem runBounded_timeout_kills (orch : TmuxOrchestrator) (runTime : Nat)
    (out err : String) (code : Int) (cmd : Cmd) (timeoutArg : Option Nat)
    (h : effective_timeout orch timeoutArg < runTime) :
    safe_subprocess_large_output orch (.proc runTime out err code) cmd timeoutArg
        = { outcome := .tmuxTimeout cmd (effective_timeout orch timeoutArg),
            killed := true, childSurvives := false }
      ∧ BoundedOutcome.capturedText
          (.tmuxTimeout cmd (effective_timeout orch timeoutArg)) = none := by
  refine ⟨?_, rfl⟩
  simp [safe_subprocess_large_output, Nat.not_le.mpr h]

/-- Witness for C4's theorem: the spec's scenario — a process needing 99
seconds against a 1-second timeout override — yields the timeout failure
with the command and timeout embedded, the child killed, and no
survivor. -/
theorem runBounded_timeout_kills_witness :
    safe_subprocess_large_output (TmuxOrchestrator.init true 10) (.proc 99 "" "" 0)
        ["sleep", "5"] (some 1)
      = { outcome := .tmuxTimeout ["sleep", "5"] 1, killed := true,
          childSurvives := false } :=
  (runBounded_timeout_kills (TmuxOrchestrator.init true 10) 99 "" "" 0
    ["sleep", "5"] (some 1) (by decide)).1

/-- C5.  For every command that exits within the effective timeout,
`_safe_subprocess_large_output` returns exactly the exit code and the two
streams verbatim: the result literally carries the `stdout`, `stderr` and
`exitCode` the process produced, untrimmed and untruncated. -/
theorem runBounded_complete_exact (orch : TmuxOrchestrator) (runTime : Nat)
    (out err : String) (code : Int) (cmd : Cmd) (timeoutArg : Option Nat)
    (h : runTime ≤ effective_timeout orch timeoutArg) :
    safe_subprocess_large_output orch (.proc runTime out err code) cmd timeoutArg
      = { outcome := .ok out err code, killed := false, childSurvives := false } := by
  simp [safe_subprocess_large_output, h]

/-- Witness for C5's theorem: the spec's scenario `["printf", "hello"]`
with a 2-second timeout returns `{stdout: "hello", stderr: "", exit 0}`
exactly. -/
theorem runBounded_complete_exact_witness :
    safe_subprocess_large_output (TmuxOrchestrator.init true 10)
        (.proc 0 "hello" "" 0) ["printf", "hello"] (some 2)
      = { outcome := .ok "hello" "" 0, killed := false, childSurvives := false } :=
  runBounded_complete_exact (TmuxOrchestrator.init true 10) 0 "hello" "" 0
    ["printf", "hello"] (some 2) (by decide)

/-- C6.  `_safe_confirm` returns `True` exactly when an input line arrives
within the timeout and its stripped, lowercased text is the literal
`"yes"`; end-of-input (which enqueues `""`), any other text, and the
absence of timely input all yield `False`. -/
theorem confirm_true_iff (orch : TmuxOrchestrator) (prompt : String)
    (timeout : Nat) (inp : ConfirmInput) :
    safe_confirm orch prompt timeout inp = true
      ↔ ∃ t s, inp = .line t s ∧ t ≤ timeout ∧ s.trim.toLower = "yes" := by
  cases inp with
  | line t s =>
      simp only [safe_confirm]
      by_cases hle : t ≤ timeout
      · simp only [if_pos hle, beq_iff_eq]
        constructor
        · intro h
          exact ⟨t, s, rfl, hle, h⟩
        · rintro ⟨t2, s2, heq, hle2, hys⟩
          injection heq with h1 h2
          subst h1
          subst h2
          exact hys
      · simp only [if_neg hle]
        constructor
        · intro h
          exact absurd h (by decide)
        · rintro ⟨t2, s2, heq, hle2, hys⟩
          injection heq with h1 h2
          subst h1
          exact absurd hle2 hle
  | eofAt t =>
      simp only [safe_confirm]
      constructor
      · intro h
        split at h
        · exact absurd h (by decide)
        · exact absurd h (by decide)
      · rintro ⟨t2, s2, heq, hle2, hys⟩
        cases heq
  | noInput =>
      simp only [safe_confirm]
      constructor
      · intro h
        exact absurd h (by decide)
      · rintro ⟨t2, s2, heq, hle2, hys⟩
        cases heq

/-- Helper for C7: no method of `TmuxOrchestrator` assigns to any
attribute, so every operation leaves the object exactly as it found it. -/
theorem stepOp_fst (orch : TmuxOrchestrator) (op : OrchOp) :
    (stepOp orch op).1 = orch := by
  cases op <;> rfl

/-- Helper for C7: replaying any sequence of operations leaves the
orchestrator object unchanged. -/
theorem runOps_fixed : ∀ (ops : List OrchOp) (orch : TmuxOrchestrator),
    runOps orch ops = orch
  | [], orch => rfl
  | op :: ops, orch => by
      simp only [runOps, stepOp_fst]
      exact runOps_fixed ops orch

/-- C7.  The safety flag is immutable after construction: across any
sequence of orchestrator operations, `safety_mode` still reads back as
the value passed to the constructor. -/
theorem safety_mode_immutable (sm : Bool) (ct : Nat) (ops : List OrchOp) :
    (runOps (TmuxOrchestrator.init sm ct) ops).safety_mode = sm := by
  rw [runOps_fixed]
  rfl

/-- C8.  Two successive `_safe_subprocess_large_output` calls with the
same command and timeout return equal results, provided the external
world behaves the same both times (the formalisation of "no external side
effects": the same `SpawnResult` feeds both calls).  The first call leaves
the orchestrator state untouched, so the second computes the identical
value. -/
theorem runBounded_idempotent (orch : TmuxOrchestrator) (beh : SpawnResult)
    (cmd : Cmd) (timeoutArg : Option Nat) :
    (stepOp orch (.runBounded beh cmd timeoutArg)).2
      = (stepOp (stepOp orch (.runBounded beh cmd timeoutArg)).1
          (.runBounded beh cmd timeoutArg)).2 :=
  rfl

/-- C9.  With `safety_mode` on and `confirm=True`, a denied or timed-out
confirmation makes `send_keys_to_window` return `False` with an empty
subprocess trace — no tmux `send-keys` runs at all — and
`send_command_to_window` likewise returns `False` with an empty trace,
sending neither the command text nor the Enter key. -/
theorem send_denied_no_subprocess (orch : TmuxOrchestrator) (session : String)
    (idx : Int) (keys : String) (inp : ConfirmInput) (keysBeh enterBeh : SpawnResult)
    (hsafe : orch.safety_mode = true)
    (hdeny : safe_confirm orch (confirm_prompt keys session idx) 5 inp = false) :
    send_keys_to_window orch session idx keys true inp keysBeh = (.ret false, [])
      ∧ send_command_to_window orch session idx keys true inp keysBeh enterBeh
          = (.ret false, []) := by
  have h1 : send_keys_to_window orch session idx keys true inp keysBeh
      = (.ret false, []) := by
    simp [send_keys_to_window, hsafe, hdeny]
  refine ⟨h1, ?_⟩
  simp [send_command_to_window, h1]

/-- Witness for C9's theorem: safety mode on, no operator input (the
confirmation times out and denies) — both methods return `False` with no
subprocess executed. -/
theorem send_denied_no_subprocess_witness :
    send_keys_to_window (TmuxOrchestrator.init true 10) "agent" 0 "echo hi" true
        ConfirmInput.noInput (.proc 0 "" "" 0) = (.ret false, [])
      ∧ send_command_to_window (TmuxOrchestrator.init true 10) "agent" 0 "echo hi"
          true ConfirmInput.noInput (.proc 0 "" "" 0) (.proc 0 "" "" 0)
        = (.ret false, []) :=
  send_denied_no_subprocess (TmuxOrchestrator.init true 10) "agent" 0 "echo hi"
    ConfirmInput.noInput (.proc 0 "" "" 0) (.proc 0 "" "" 0) rfl rfl

/-- C10.  `capture_window_content` asks tmux for exactly
`min(num_lines, max_lines_capture)` lines of history — never more than
the constructor's cap of 1000, whatever `num_lines` is — and takes the
streaming path exactly when that clamped value exceeds 100. -/
theorem capture_clamp_and_streaming (sm : Bool) (ct : Nat) (session : String)
    (idx : Int) (numLines : Nat) (sBeh : StreamBehavior) (bBeh : SpawnResult) :
    (capture_window_content (TmuxOrchestrator.init sm ct) session idx numLines
          sBeh bBeh).2.requestedLines = min numLines 1000
      ∧ (capture_window_content (TmuxOrchestrator.init sm ct) session idx numLines
          sBeh bBeh).2.requestedLines ≤ 1000
      ∧ ((capture_window_content (TmuxOrchestrator.init sm ct) session idx numLines
          sBeh bBeh).2.usedStreaming = true ↔ 100 < min numLines 1000) := by
  refine ⟨rfl, Nat.min_le_right _ _, ?_⟩
  exact decide_eq_true_iff

end TmuxUtils
